import Mathlib

/-
Verification of the help/usage utilities and the `logs` command of the
balena CLI excerpt (src/lib/utils/oclif-utils.ts and the concatenated
`logs` capitano command definition).

The TypeScript is shallowly embedded: pure string transforms become Lean
functions on String / List Char; the effectful `logs` action becomes a
function from an explicit environment (the behavior of its external
collaborators: validators, device API, SDK, login check) to the list of
observable collaborator calls it performs plus how its returned promise
settles.  JavaScript `undefined` is modelled as `Option.none`.
-/

/- ----------------------------------------------------------------- -/
/- CommandHelp: usage-string formatter                                -/
/- ----------------------------------------------------------------- -/

/-- An oclif argument descriptor, as consumed by `CommandHelp`:
`{ name, required?, hidden? }` (absent boolean fields are falsy, so they
are modelled as `Bool` with default `false`). -/
structure ArgDescriptor where
  name : String
  required : Bool := false
  hidden : Bool := false
deriving DecidableEq

/-- JavaScript `String.prototype.toUpperCase` on ASCII text, as a map over
the characters (written directly on the character list so that it reduces
inside the kernel). -/
def jsToUpperCase (s : String) : String :=
  String.mk (s.data.map Char.toUpper)

namespace CommandHelp

/-- `CommandHelp.arg`: `name.toUpperCase()`, returned bare when
`arg.required`, otherwise wrapped in square brackets. -/
def arg (a : ArgDescriptor) : String :=
  let name := jsToUpperCase a.name
  if a.required then name else "[" ++ name ++ "]"

/-- `CommandHelp.compact`: keeps the truthy elements of an array.  At its
one call site the elements are strings, whose only falsy value is `""`. -/
def compact (xs : List String) : List String :=
  xs.filter (fun s => !(s == ""))

/-- `CommandHelp.defaultUsage`: join the rendered non-hidden args with
spaces, `compact` the singleton list holding that string, and join the
result with spaces. -/
def defaultUsage (args : List ArgDescriptor) : String :=
  String.intercalate " "
    (compact [String.intercalate " " ((args.filter (fun a => !a.hidden)).map arg)])

end CommandHelp

/- ----------------------------------------------------------------- -/
/- CustomMain._helpOverride                                           -/
/- ----------------------------------------------------------------- -/

/-- The fixed token list `['-v', '--version', 'version']` tested by
`CustomMain._helpOverride`. -/
def versionTokens : List String := ["-v", "--version", "version"]

/-- `CustomMain._helpOverride`: returns `false` when `this.argv[0]` is one
of `versionTokens`, and otherwise returns whatever `super._helpOverride()`
returns (the framework default, passed in as `superResult`).  `argv[0]` is
`undefined` (`none`) when `argv` is empty; `includes(undefined)` is
`false`. -/
def customMainHelpOverride (superResult : Bool) (argv0 : Option String) : Bool :=
  match argv0 with
  | some a => if versionTokens.contains a then false else superResult
  | none => superResult

/- ----------------------------------------------------------------- -/
/- capitanoizeOclifUsage                                              -/
/- ----------------------------------------------------------------- -/

/-- ASCII uppercase letter, the character class `[A-Z]` of the regex in
`capitanoizeOclifUsage`. -/
def isUpperAZ (c : Char) : Bool := 'A' ≤ c && c ≤ 'Z'

/-- The ASCII part of the JavaScript regex class `\s` (the inputs in this
development contain only ASCII whitespace). -/
def isJsWhitespace (c : Char) : Bool :=
  c = ' ' || c = '\t' || c = '\n' || c = '\r' || c = '\x0b' || c = '\x0c'

/-- Splits off the maximal leading run of `[A-Z]` characters (the greedy
match of `[A-Z]+`). -/
def takeUpperRun : List Char → List Char × List Char
  | [] => ([], [])
  | c :: cs =>
    if isUpperAZ c then
      let p := takeUpperRun cs
      (c :: p.1, p.2)
    else ([], c :: cs)

/-- One left-to-right pass of
`replace(/(?<=\s)[A-Z]+(?=(\s|$))/g, (match) => ...)`: a maximal uppercase
run whose preceding character is whitespace (`prevWs`) and whose following
character is whitespace or the end of the string is rewritten to
`< run >`; every other character is copied.  `fuel` is an upper bound on
the remaining length, so the `0` case is never reached when the function
is called with `fuel = l.length`. -/
def wrapUpperGo : Nat → Bool → List Char → List Char
  | 0, _, l => l
  | _ + 1, _, [] => []
  | fuel + 1, prevWs, c :: cs =>
    if prevWs && isUpperAZ c then
      let p := takeUpperRun (c :: cs)
      let okAfter :=
        match p.2 with
        | [] => true
        | d :: _ => isJsWhitespace d
      if okAfter then
        '<' :: (p.1 ++ '>' :: wrapUpperGo fuel false p.2)
      else
        c :: wrapUpperGo fuel false cs
    else
      c :: wrapUpperGo fuel (isJsWhitespace c) cs

/-- The `string | string[] | undefined` parameter type of
`capitanoizeOclifUsage`. -/
inductive UsageInput where
  | undef
  | str (s : String)
  | arr (ss : List String)
deriving DecidableEq

/-- `(oclifUsage || '').toString()`: `undefined` becomes `''`; an empty
string is falsy and also becomes `''`; `Array.prototype.toString` joins
with commas. -/
def usageToString : UsageInput → String
  | UsageInput.undef => ""
  | UsageInput.str s => s
  | UsageInput.arr ss => String.intercalate "," ss

/-- `capitanoizeOclifUsage`: wrap whitespace-delimited uppercase runs in
angle brackets (the first character of the string has no preceding
whitespace, so a leading run is never wrapped), then lowercase the
result. -/
def capitanoizeOclifUsage (u : UsageInput) : String :=
  let s := usageToString u
  String.mk ((wrapUpperGo s.data.length false s.data).map Char.toLower)

/- ----------------------------------------------------------------- -/
/- Theorems: C1, C4, C9                                               -/
/- ----------------------------------------------------------------- -/

/-- Joining the compacted singleton list with spaces gives back the
string: an empty string is dropped by `compact` and the empty join is
`""`. -/
theorem intercalate_compact_single (s : String) :
    String.intercalate " " (CommandHelp.compact [s]) = s := by
  by_cases h : s = ""
  · subst h
    simp [CommandHelp.compact, String.intercalate]
  · have hb : (s == "") = false := beq_eq_false_iff_ne.mpr h
    simp [CommandHelp.compact, hb, String.intercalate, String.intercalate.go]

/-- Claim C1 (amended): for every argument list, `defaultUsage` joins with
single spaces, in input order, the rendering of every argument not marked
hidden, where a required argument is rendered as its uppercased name with
no brackets at all, and an optional argument as the uppercased name in
square brackets; hidden arguments are excluded entirely. -/
theorem defaultUsage_renders (args : List ArgDescriptor) :
    CommandHelp.defaultUsage args =
      String.intercalate " "
        ((args.filter (fun a => !a.hidden)).map
          (fun a => if a.required then jsToUpperCase a.name
                    else "[" ++ jsToUpperCase a.name ++ "]")) := by
  unfold CommandHelp.defaultUsage
  rw [intercalate_compact_single]
  have h : CommandHelp.arg = fun a : ArgDescriptor =>
      if a.required then jsToUpperCase a.name
      else "[" ++ jsToUpperCase a.name ++ "]" := by
    funext a
    simp [CommandHelp.arg]
  rw [h]

/-- Claim C1 counterexample: a required argument named "name" is rendered
as "NAME", not as the angle-bracketed "<NAME>" stated by the claim, and an
optional argument named "value" is rendered as "[VALUE]", not
"[<VALUE>]". -/
theorem defaultUsage_no_angle_brackets :
    CommandHelp.defaultUsage [{ name := "name", required := true }] = "NAME" ∧
    CommandHelp.defaultUsage [{ name := "value" }] = "[VALUE]" ∧
    ("NAME" : String) ≠ "<NAME>" ∧
    ("[VALUE]" : String) ≠ "[<VALUE>]" :=
  ⟨by decide, by decide, by decide, by decide⟩

/-- Claim C4 (amended): on the input "ENV ADD NAME [VALUE]" the function
returns "env <add> <name> [value]": the uppercase runs ADD and NAME are
preceded by whitespace and followed by whitespace, so they are wrapped in
angle brackets; the leading ENV has no preceding whitespace and VALUE is
preceded by a square bracket, so neither is wrapped; the whole string is
then lowercased. -/
theorem capitanoize_env_add_example :
    capitanoizeOclifUsage (UsageInput.str "ENV ADD NAME [VALUE]") =
      "env <add> <name> [value]" := by decide

/-- Claim C4 counterexample: on "ENV ADD NAME [VALUE]" the function does
not return "env add <name> [value]" as the claim states (ADD, being
preceded and followed by whitespace, gets wrapped too). -/
theorem capitanoize_env_add_claim_false :
    capitanoizeOclifUsage (UsageInput.str "ENV ADD NAME [VALUE]") ≠
      "env add <name> [value]" := by decide

/-- Claim C9: the help override returns `false` when the first
command-line argument is one of the version-request tokens `-v`,
`--version` or `version`, and otherwise (any other first argument, or no
first argument at all) returns exactly the framework default result. -/
theorem customMainHelpOverride_spec (superResult : Bool) (a : String) :
    customMainHelpOverride superResult (some a) =
      (if a ∈ versionTokens then false else superResult) ∧
    customMainHelpOverride superResult none = superResult := by
  refine ⟨?_, rfl⟩
  by_cases h : a ∈ versionTokens
  · simp [customMainHelpOverride, h]
  · simp [customMainHelpOverride, h]

/- ----------------------------------------------------------------- -/
/- Manifest reader                                                    -/
/- ----------------------------------------------------------------- -/

/-- A parsed JSON value, the result of `JSON.parse`.  In `Json.obj` the
field list holds the object's own enumerable properties in enumeration
order with distinct keys, exactly as `JSON.parse` produces them (duplicate
keys in the document are already collapsed by the parser).  JSON numbers
are modelled as integers; none of the verified behavior inspects a
numeric value. -/
inductive Json where
  | null
  | bool (b : Bool)
  | num (n : Int)
  | str (s : String)
  | arr (elems : List Json)
  | obj (fields : List (String × Json))

/-- A JavaScript error value as observed by the `catch` clause: an
optional `code` property (present on Node.js filesystem errors, absent on
plain `Error` and on `JSON.parse` syntax errors) and a message. -/
structure JsError where
  code : Option String
  message : String
deriving DecidableEq

/-- The error thrown by `getCommandsFromManifest` when the file read
fails with `ENOENT`: `new Error('Oclif manifest not found.')`. -/
def manifestNotFoundErr : JsError :=
  { code := none, message := "Oclif manifest not found." }

/-- The error thrown by `getCommandIdsFromManifest` when the `commands`
value is nullish (the message text of the source, typo included). -/
def commandsMissingErr : JsError :=
  { code := none, message := "Commands second not found in manifest." }

/-- The JS property read `manifest.commands`: the field's value on an
object that has it, `undefined` (`none`) on an object without it and on
non-object primitives, and a TypeError on a `null` base. -/
def manifestCommands : Json → Except JsError (Option Json)
  | Json.null => Except.error
      { code := none, message := "Cannot read properties of null" }
  | Json.obj fields => Except.ok (fields.lookup "commands")
  | _ => Except.ok none

/-- JavaScript `value == null`: true exactly for `undefined` and
`null`. -/
def jsIsNullish : Option Json → Bool
  | none => true
  | some Json.null => true
  | some _ => false

/-- JavaScript `Object.keys`: the own enumerable property names, i.e. the
field names of an object, the index strings of an array or a string, and
the empty list for the remaining primitives. -/
def jsObjectKeys : Json → List String
  | Json.obj fields => fields.map Prod.fst
  | Json.arr elems => (List.range elems.length).map toString
  | Json.str s => (List.range s.length).map toString
  | _ => []

/-- `getCommandsFromManifest`: reads and parses `./oclif.manifest.json`
(the combined outcome of `readFile` + `JSON.parse` is the explicit
`readResult` input).  A read/parse error whose `code` is `ENOENT` is
replaced by the manifest-not-found error, any other error is rethrown
unchanged; on success the function returns `manifest.commands`. -/
def getCommandsFromManifest (readResult : Except JsError Json) :
    Except JsError (Option Json) :=
  match readResult with
  | Except.error e =>
    if e.code = some "ENOENT" then Except.error manifestNotFoundErr
    else Except.error e
  | Except.ok manifest => manifestCommands manifest

/-- `getCommandIdsFromManifest`: calls `getCommandsFromManifest`, throws
the commands-missing error when the result is nullish (`commands == null`)
and otherwise returns `Object.keys(commands)`. -/
def getCommandIdsFromManifest (readResult : Except JsError Json) :
    Except JsError (List String) :=
  match getCommandsFromManifest readResult with
  | Except.error e => Except.error e
  | Except.ok commands =>
    if jsIsNullish commands then Except.error commandsMissingErr
    else Except.ok (jsObjectKeys (commands.getD Json.null))

/- ----------------------------------------------------------------- -/
/- Theorems: C6, C7, C10                                              -/
/- ----------------------------------------------------------------- -/

/-- Claim C6 (amended): on a successfully parsed object manifest,
`getCommandIdsFromManifest` fails with the commands-missing error exactly
when the `commands` field is absent or holds JSON `null` (the code tests
`commands == null`), and whenever the field holds a non-null value it
returns `Object.keys` of that value; in particular, for an object-valued
`commands` field, exactly the declared command names. -/
theorem getCommandIds_spec (fields : List (String × Json)) :
    (getCommandIdsFromManifest (Except.ok (Json.obj fields)) =
        Except.error commandsMissingErr ↔
      (fields.lookup "commands" = none ∨
        fields.lookup "commands" = some Json.null))
    ∧ (∀ v, fields.lookup "commands" = some v → v ≠ Json.null →
        getCommandIdsFromManifest (Except.ok (Json.obj fields)) =
          Except.ok (jsObjectKeys v))
    ∧ (∀ sub : List (String × Json),
        fields.lookup "commands" = some (Json.obj sub) →
        getCommandIdsFromManifest (Except.ok (Json.obj fields)) =
          Except.ok (sub.map Prod.fst)) := by
  refine ⟨?_, ?_, ?_⟩
  · cases h : fields.lookup "commands" with
    | none =>
      simp [getCommandIdsFromManifest, getCommandsFromManifest,
        manifestCommands, h, jsIsNullish]
    | some v =>
      cases v <;>
        simp [getCommandIdsFromManifest, getCommandsFromManifest,
          manifestCommands, h, jsIsNullish, commandsMissingErr]
  · intro v hv hne
    cases v <;>
      simp_all [getCommandIdsFromManifest, getCommandsFromManifest,
        manifestCommands, jsIsNullish]
  · intro sub hsub
    simp [getCommandIdsFromManifest, getCommandsFromManifest,
      manifestCommands, hsub, jsIsNullish, jsObjectKeys]

/-- Claim C6 counterexample: the manifest
`{ "commands": null }` has a `commands` field, yet
`getCommandIdsFromManifest` still fails with the commands-missing error
(the code checks `commands == null`, which is also true for a present
field holding `null`), so the failure is not "exactly when the manifest
lacks a commands field". -/
theorem getCommandIds_null_field_cex :
    ([("commands", Json.null)].lookup "commands" = some Json.null)
    ∧ getCommandIdsFromManifest (Except.ok (Json.obj [("commands", Json.null)])) =
        Except.error commandsMissingErr :=
  ⟨rfl, rfl⟩

/-- Claim C6 witness: instantiation of the amended theorem at a concrete
manifest `{ "commands": { "logs": 0, "push": 1 } }`. -/
theorem getCommandIds_spec_witness :
    ([("commands",
        Json.obj [("logs", Json.num 0), ("push", Json.num 1)])].lookup
          "commands" =
        some (Json.obj [("logs", Json.num 0), ("push", Json.num 1)]))
    ∧ getCommandIdsFromManifest
        (Except.ok (Json.obj
          [("commands",
            Json.obj [("logs", Json.num 0), ("push", Json.num 1)])])) =
        Except.ok ["logs", "push"] :=
  ⟨rfl,
    (getCommandIds_spec
      [("commands",
        Json.obj [("logs", Json.num 0), ("push", Json.num 1)])]).2.2
      [("logs", Json.num 0), ("push", Json.num 1)] rfl⟩

/-- Claim C7: when the read of the manifest file fails, an error carrying
the `ENOENT` code (file absent) is replaced by the manifest-not-found
error, and every other read or parse error propagates to the caller
unchanged. -/
theorem getCommandsFromManifest_read_error (e : JsError) :
    getCommandsFromManifest (Except.error e) =
      Except.error (if e.code = some "ENOENT" then manifestNotFoundErr else e) := by
  by_cases h : e.code = some "ENOENT" <;>
    simp [getCommandsFromManifest, h]

/-- Claim C10: on a parsed object manifest without a `commands` field,
`getCommandsFromManifest` itself succeeds and returns the absent field's
value `undefined` (`none`) without raising any error; the commands-missing
failure is raised only by the `getCommandIdsFromManifest` wrapper. -/
theorem getCommandsFromManifest_missing_field (fields : List (String × Json))
    (h : fields.lookup "commands" = none) :
    getCommandsFromManifest (Except.ok (Json.obj fields)) = Except.ok none
    ∧ getCommandIdsFromManifest (Except.ok (Json.obj fields)) =
        Except.error commandsMissingErr := by
  constructor
  · simp [getCommandsFromManifest, manifestCommands, h]
  · simp [getCommandIdsFromManifest, getCommandsFromManifest,
      manifestCommands, h, jsIsNullish]

/-- Claim C10 witness: instantiation at the concrete manifest
`{ "version": "1.0" }`, which lacks a `commands` field. -/
theorem getCommandsFromManifest_missing_field_witness :
    ([("version", Json.str "1.0")].lookup "commands" = none)
    ∧ (getCommandsFromManifest
          (Except.ok (Json.obj [("version", Json.str "1.0")])) =
        Except.ok none
      ∧ getCommandIdsFromManifest
          (Except.ok (Json.obj [("version", Json.str "1.0")])) =
        Except.error commandsMissingErr) :=
  ⟨rfl, getCommandsFromManifest_missing_field [("version", Json.str "1.0")] rfl⟩

/- ----------------------------------------------------------------- -/
/- The logs command                                                   -/
/- ----------------------------------------------------------------- -/

/-- A balena-sdk `LogMessage`: a log record with message text, timestamp,
a system/service origin flag, an optional numeric service id and a
stderr flag. -/
structure LogMessage where
  message : String := ""
  timestamp : Nat := 0
  isSystem : Bool := false
  serviceId : Option Nat := none
  isStdErr : Bool := false
deriving DecidableEq

/-- The `--service` option value, of TS type
`[string] | string | undefined`. -/
inductive ServiceFlag where
  | undef
  | one (s : String)
  | many (ss : List String)
deriving DecidableEq

/-- The parsed options of the `logs` command: `tail` and `system` are
optional booleans (`boolean | undefined`), `service` as above. -/
structure LogsOptions where
  tail : Option Bool := none
  service : ServiceFlag := ServiceFlag.undef
  system : Option Bool := none
deriving DecidableEq

/-- JavaScript truthiness of a `boolean | undefined` value, as used by
`if (options.tail)` and `options.system || false`. -/
def jsTruthy (b : Option Bool) : Bool := b.getD false

/-- The `servicesToDisplay` computation of the action:
`options.service != null ? (Array.isArray(options.service) ?
options.service : [options.service]) : undefined`. -/
def servicesToDisplay : ServiceFlag → Option (List String)
  | ServiceFlag.undef => none
  | ServiceFlag.many ss => some ss
  | ServiceFlag.one s => some [s]

/-- An error surfaced by the `logs` action: an `ExpectedError` with a
message, the not-logged-in failure thrown by the external `checkLoggedIn`,
or an error event propagated verbatim from the log stream. -/
inductive CliError where
  | expected (msg : String)
  | notLoggedIn
  | stream (msg : String)
deriving DecidableEq

/-- How the promise returned by the action settles: resolves, rejects, or
never settles (the deliberately never-resolving tail wait). -/
inductive Settled where
  | ok
  | err (e : CliError)
  | pending
deriving DecidableEq

/-- One call of `displayLogObject(...)` on the cloud path: the (possibly
serviceName-augmented) log entry plus the `options.system || false` and
`servicesToDisplay` arguments. -/
structure CloudLogDisplay where
  serviceName : Option String
  line : LogMessage
  system : Bool
  services : Option (List String)
deriving DecidableEq

/-- An observable call the action makes on its external collaborators, in
program order. -/
inductive Effect where
  | checkLoggedIn
  | ping (addr : String)
  | getLogStream
  | displayDeviceLogs (system : Bool) (services : Option (List String))
  | subscribe (uuid : String) (count : Nat)
  | fetchHistory (uuid : String)
  | displayCloud (call : CloudLogDisplay)
deriving DecidableEq

/-- Effects that belong to the cloud branch of the action (login check,
SDK subscribe/history, cloud display); the local-device path performs none
of these. -/
def Effect.isCloudOnly : Effect → Bool
  | Effect.checkLoggedIn => true
  | Effect.subscribe _ _ => true
  | Effect.fetchHistory _ => true
  | Effect.displayCloud _ => true
  | _ => false

/-- The behavior of the external collaborators of one invocation of the
`logs` action: the identifier validators (repository code outside this
excerpt), the device API reachability and the login state, the service
name resolver, the lines and terminal error event of the subscribed cloud
stream, how the local-device display settles, and the history list
returned by the SDK. -/
structure LogsEnv where
  validateIPAddress : String → Bool
  validateDotLocalUrl : String → Bool
  pingOk : Bool
  deviceLogsSettled : Settled
  loggedIn : Bool
  serviceIdToName : Option Nat → Option String
  streamLines : List LogMessage
  streamError : Option String
  history : List LogMessage

/-- The `displayCloudLog` closure of the action: for a non-system line the
numeric service id is resolved to a name, `null`/`undefined` results fall
back to "Unknown service", and the augmented entry is handed to
`displayLogObject`; a system line is handed over unaugmented. -/
def displayCloudLog (env : LogsEnv) (opts : LogsOptions) (line : LogMessage) :
    CloudLogDisplay :=
  if !line.isSystem then
    let serviceName :=
      match env.serviceIdToName line.serviceId with
      | some n => n
      | none => "Unknown service"
    { serviceName := some serviceName, line := line,
      system := jsTruthy opts.system, services := servicesToDisplay opts.service }
  else
    { serviceName := none, line := line,
      system := jsTruthy opts.system, services := servicesToDisplay opts.service }

/-- The `logs.action` control flow: the collaborator calls it performs in
order, and how its promise settles.  An identifier accepted by
`validateIPAddress` or `validateDotLocalUrl` takes the local-device path:
ping, then (if reachable) get the device log stream and hand it to
`displayDeviceLogs`; an unreachable device raises the ExpectedError
naming the address.  Every other identifier takes the cloud path: check
login; with a truthy `tail` subscribe with `{ count: 100 }` and await a
promise that only the stream error event can settle (by rejection), each
line event going through `displayCloudLog`; with a falsy `tail` fetch the
history once and display each entry in order.  (`normalizeUuidProp` is a
no-op on this command's string parameter and is not modelled.) -/
def logsAction (env : LogsEnv) (uuidOrDevice : String) (opts : LogsOptions) :
    List Effect × Settled :=
  if env.validateIPAddress uuidOrDevice || env.validateDotLocalUrl uuidOrDevice then
    if env.pingOk then
      ([Effect.ping uuidOrDevice, Effect.getLogStream,
        Effect.displayDeviceLogs (jsTruthy opts.system) (servicesToDisplay opts.service)],
       env.deviceLogsSettled)
    else
      ([Effect.ping uuidOrDevice],
       Settled.err (CliError.expected
         ("Cannot access local mode device at address " ++ uuidOrDevice)))
  else if !env.loggedIn then
    ([Effect.checkLoggedIn], Settled.err CliError.notLoggedIn)
  else if jsTruthy opts.tail then
    ([Effect.checkLoggedIn, Effect.subscribe uuidOrDevice 100]
       ++ env.streamLines.map (fun l => Effect.displayCloud (displayCloudLog env opts l)),
     match env.streamError with
     | some m => Settled.err (CliError.stream m)
     | none => Settled.pending)
  else
    ([Effect.checkLoggedIn, Effect.fetchHistory uuidOrDevice]
       ++ env.history.map (fun l => Effect.displayCloud (displayCloudLog env opts l)),
     Settled.ok)

/-- The cloud log entries handed to `displayLogObject`, in order, within a
list of effects. -/
def cloudDisplays (effs : List Effect) : List CloudLogDisplay :=
  effs.filterMap fun e =>
    match e with
    | Effect.displayCloud c => some c
    | _ => none

/- ----------------------------------------------------------------- -/
/- Theorems: C2, C3, C5, C8                                           -/
/- ----------------------------------------------------------------- -/

/-- Claim C2: an identifier accepted by the IP-address validator or the
`.local` hostname validator takes the local-device path for every value of
the `--tail` flag: the action's behavior is the same for any two tail
values, its first collaborator call is the `ping` reachability check, it
performs no cloud-branch call at all, and when the ping fails it rejects
with the cannot-access ExpectedError naming the address after the ping
alone, never reaching the log stream. -/
theorem logs_local_path (env : LogsEnv) (id : String)
    (t1 t2 : Option Bool) (svc : ServiceFlag) (sys : Option Bool)
    (h : env.validateIPAddress id = true ∨ env.validateDotLocalUrl id = true) :
    logsAction env id { tail := t1, service := svc, system := sys } =
      logsAction env id { tail := t2, service := svc, system := sys }
    ∧ (logsAction env id { tail := t1, service := svc, system := sys }).1.head? =
        some (Effect.ping id)
    ∧ (logsAction env id { tail := t1, service := svc, system := sys }).1.all
        (fun e => !e.isCloudOnly) = true
    ∧ (env.pingOk = false →
        logsAction env id { tail := t1, service := svc, system := sys } =
          ([Effect.ping id],
           Settled.err (CliError.expected
             ("Cannot access local mode device at address " ++ id)))) := by
  have hb : (env.validateIPAddress id || env.validateDotLocalUrl id) = true := by
    rcases h with h | h <;> simp [h]
  cases hp : env.pingOk <;>
    simp [logsAction, hb, hp, Effect.isCloudOnly]

/-- Claim C3: on the cloud path with a truthy tail flag, the controlling
promise never resolves successfully; it stays pending when the stream
emits no error event and settles, by rejecting with the propagated stream
error, exactly when the stream emits one. -/
theorem logs_cloud_tail_settlement (env : LogsEnv) (id : String)
    (opts : LogsOptions)
    (hip : env.validateIPAddress id = false)
    (hloc : env.validateDotLocalUrl id = false)
    (hlog : env.loggedIn = true)
    (htail : jsTruthy opts.tail = true) :
    (logsAction env id opts).2 ≠ Settled.ok
    ∧ (logsAction env id opts).2 =
        (match env.streamError with
         | some m => Settled.err (CliError.stream m)
         | none => Settled.pending) := by
  cases hse : env.streamError <;>
    simp [logsAction, hip, hloc, hlog, htail, hse]

/-- Claim C5: on the cloud path with a falsy tail flag, the action checks
login, fetches the history exactly once, hands each returned log message
to the display step exactly once in the order the history list returned
them, and resolves normally. -/
theorem logs_cloud_history (env : LogsEnv) (id : String) (opts : LogsOptions)
    (hip : env.validateIPAddress id = false)
    (hloc : env.validateDotLocalUrl id = false)
    (hlog : env.loggedIn = true)
    (htail : jsTruthy opts.tail = false) :
    logsAction env id opts =
      ([Effect.checkLoggedIn, Effect.fetchHistory id]
        ++ env.history.map (fun l => Effect.displayCloud (displayCloudLog env opts l)),
       Settled.ok)
    ∧ List.countP
        (fun e => match e with
          | Effect.fetchHistory _ => true
          | _ => false)
        (logsAction env id opts).1 = 1
    ∧ cloudDisplays (logsAction env id opts).1 =
        env.history.map (displayCloudLog env opts) := by
  have h1 : logsAction env id opts =
      ([Effect.checkLoggedIn, Effect.fetchHistory id]
        ++ env.history.map (fun l => Effect.displayCloud (displayCloudLog env opts l)),
       Settled.ok) := by
    simp [logsAction, hip, hloc, hlog, htail]
  refine ⟨h1, ?_, ?_⟩
  · rw [h1]
    simp [List.countP_append, List.countP_cons, List.countP_map, Function.comp]
  · rw [h1]
    simp only [cloudDisplays, List.filterMap_append]
    have h0 : List.filterMap
        (fun e => match e with
          | Effect.displayCloud c => some c
          | _ => none)
        [Effect.checkLoggedIn, Effect.fetchHistory id] = [] := rfl
    rw [h0, List.nil_append]
    induction env.history with
    | nil => rfl
    | cons a t ih => simp [List.filterMap_cons, ih]

/-- Claim C8: in the cloud path's per-line display step, a non-system log
entry's numeric service id is resolved through `serviceIdToName`; the
resolved name is attached to the entry handed to the display formatter,
and when resolution yields no name the attached service name falls back to
"Unknown service"; the log entry itself is passed through unchanged. -/
theorem displayCloudLog_service_name (env : LogsEnv) (opts : LogsOptions)
    (line : LogMessage) (h : line.isSystem = false) :
    (displayCloudLog env opts line).serviceName =
      some (match env.serviceIdToName line.serviceId with
            | some n => n
            | none => "Unknown service")
    ∧ (env.serviceIdToName line.serviceId = none →
        (displayCloudLog env opts line).serviceName = some "Unknown service")
    ∧ (displayCloudLog env opts line).line = line := by
  cases hs : env.serviceIdToName line.serviceId <;>
    simp [displayCloudLog, h, hs]

/-- A concrete collaborator environment shared by the witnesses below:
the device at 192.168.0.31 is unreachable, the user is logged in, service
ids resolve to no name, the cloud stream emits a broken-connection error,
and the history holds two messages. -/
def envW : LogsEnv :=
  { validateIPAddress := fun s => s == "192.168.0.31"
    validateDotLocalUrl := fun s => s == "23c73a1.local"
    pingOk := false
    deviceLogsSettled := Settled.pending
    loggedIn := true
    serviceIdToName := fun _ => none
    streamLines := []
    streamError := some "broken connection"
    history := [{ message := "one" }, { message := "two", isSystem := true }] }

/-- Claim C2 witness: the local-path theorem instantiated at the
unreachable device 192.168.0.31 with tail values `some true` and
`none`. -/
theorem logs_local_path_witness :
    (envW.validateIPAddress "192.168.0.31" = true ∨
      envW.validateDotLocalUrl "192.168.0.31" = true)
    ∧ (logsAction envW "192.168.0.31"
          { tail := some true, service := ServiceFlag.undef, system := none } =
        logsAction envW "192.168.0.31"
          { tail := none, service := ServiceFlag.undef, system := none }
      ∧ (logsAction envW "192.168.0.31"
          { tail := some true, service := ServiceFlag.undef, system := none }).1.head? =
          some (Effect.ping "192.168.0.31")
      ∧ (logsAction envW "192.168.0.31"
          { tail := some true, service := ServiceFlag.undef, system := none }).1.all
          (fun e => !e.isCloudOnly) = true
      ∧ (envW.pingOk = false →
          logsAction envW "192.168.0.31"
            { tail := some true, service := ServiceFlag.undef, system := none } =
            ([Effect.ping "192.168.0.31"],
             Settled.err (CliError.expected
               ("Cannot access local mode device at address " ++ "192.168.0.31"))))) :=
  ⟨Or.inl (by decide),
    logs_local_path envW "192.168.0.31" (some true) none ServiceFlag.undef none
      (Or.inl (by decide))⟩

/-- Claim C3 witness: the tail-settlement theorem instantiated at the
cloud identifier 23c73a1 with the tail flag set, in an environment whose
stream emits a broken-connection error. -/
theorem logs_cloud_tail_settlement_witness :
    (envW.validateIPAddress "23c73a1" = false
     ∧ envW.validateDotLocalUrl "23c73a1" = false
     ∧ envW.loggedIn = true
     ∧ jsTruthy ({ tail := some true } : LogsOptions).tail = true)
    ∧ ((logsAction envW "23c73a1" { tail := some true }).2 ≠ Settled.ok
      ∧ (logsAction envW "23c73a1" { tail := some true }).2 =
          (match envW.streamError with
           | some m => Settled.err (CliError.stream m)
           | none => Settled.pending)) :=
  ⟨⟨by decide, by decide, rfl, rfl⟩,
    logs_cloud_tail_settlement envW "23c73a1" { tail := some true }
      (by decide) (by decide) rfl rfl⟩

/-- Claim C5 witness: the history theorem instantiated at the cloud
identifier 23c73a1 with default options (tail unset). -/
theorem logs_cloud_history_witness :
    (envW.validateIPAddress "23c73a1" = false
     ∧ envW.validateDotLocalUrl "23c73a1" = false
     ∧ envW.loggedIn = true
     ∧ jsTruthy ({} : LogsOptions).tail = false)
    ∧ (logsAction envW "23c73a1" {} =
        ([Effect.checkLoggedIn, Effect.fetchHistory "23c73a1"]
          ++ envW.history.map
              (fun l => Effect.displayCloud (displayCloudLog envW {} l)),
         Settled.ok)
      ∧ List.countP
          (fun e => match e with
            | Effect.fetchHistory _ => true
            | _ => false)
          (logsAction envW "23c73a1" {}).1 = 1
      ∧ cloudDisplays (logsAction envW "23c73a1" {}).1 =
          envW.history.map (displayCloudLog envW {})) :=
  ⟨⟨by decide, by decide, rfl, rfl⟩,
    logs_cloud_history envW "23c73a1" {} (by decide) (by decide) rfl rfl⟩

/-- Claim C8 witness: the service-name theorem instantiated at a
non-system log entry with service id 5 in an environment where resolution
fails, so the attached name is the "Unknown service" fallback. -/
theorem displayCloudLog_service_name_witness :
    (({ message := "m", serviceId := some 5 } : LogMessage).isSystem = false)
    ∧ ((displayCloudLog envW {} { message := "m", serviceId := some 5 }).serviceName =
        some (match envW.serviceIdToName
                ({ message := "m", serviceId := some 5 } : LogMessage).serviceId with
              | some n => n
              | none => "Unknown service")
      ∧ (envW.serviceIdToName
            ({ message := "m", serviceId := some 5 } : LogMessage).serviceId = none →
          (displayCloudLog envW {} { message := "m", serviceId := some 5 }).serviceName =
            some "Unknown service")
      ∧ (displayCloudLog envW {} { message := "m", serviceId := some 5 }).line =
          { message := "m", serviceId := some 5 }) :=
  ⟨rfl, displayCloudLog_service_name envW {} { message := "m", serviceId := some 5 } rfl⟩
